import Mathlib

/-!
Shallow embedding of the authentication / authorization backend of the
coaching-observation app (src/backend of the repository).

MongoDB collections are modelled as Lean lists of structures; a `find_one`
is `List.find?` (first match), `update_one` updates the first match,
`delete_one` removes the first match, `insert_one` appends.  Absent or
null document fields are `Option` (Mongo's `null` equality semantics and a
missing field coincide in this model).  Timestamps are integers (seconds);
`timedelta(days=7)` is `7 * 24 * 60 * 60`.  Fresh identifiers produced by
`uuid` / `secrets` enter the functions as explicit parameters, and the
bcrypt library is an abstract parameter (`Bcrypt`).  Fields of the
documents that no modelled code path reads or branches on (createdAt /
updatedAt audit stamps, marketing flags, observation-session content
fields) are omitted.
-/

/-- HTTP error as raised by `fastapi.HTTPException`: status code and detail. -/
structure HTTPError where
  status : Nat
  detail : String
deriving Repr, DecidableEq

/-- Outcome of a route handler: a value, or an `HTTPException`. -/
inductive Resp (α : Type) where
  | ok : α → Resp α
  | err : HTTPError → Resp α
deriving Repr, DecidableEq

/-- Python truthiness of an optional string (`if not x:` is taken for
`None` and for the empty string). -/
def truthy : Option String → Bool
  | none => false
  | some s => !s.isEmpty

/-- Mongo `update_one`: rewrite the first element satisfying `p` with `f`. -/
def update_first {α : Type} (p : α → Bool) (f : α → α) : List α → List α
  | [] => []
  | x :: xs => if p x then f x :: xs else x :: update_first p f xs

/-- Mongo `delete_one`: drop the first element satisfying `p`. -/
def delete_first {α : Type} (p : α → Bool) : List α → List α
  | [] => []
  | x :: xs => if p x then xs else x :: delete_first p xs

/-- ASCII lower-casing of one character, as Python's `str.lower` and the
`$options: "i"` regex flag act on ASCII text (non-ASCII case folding is
outside the model). -/
def lower_char (c : Char) : Char :=
  if 'A' ≤ c ∧ c ≤ 'Z' then Char.ofNat (c.toNat + 32) else c

/-- Lower-cased character list of a string (model of `str.lower`). -/
def lower_str (s : String) : List Char := s.data.map lower_char

/-- Model of the anchored case-insensitive Mongo regex
`{"$regex": "^<e>$", "$options": "i"}` the code uses on email fields:
case-insensitive equality.  (A regex metacharacter inside `<e>` could make
the real regex match more strings; for emails with no metacharacter effect
this is exact.) -/
def ci_eq (a b : String) : Bool := lower_str a == lower_str b

/-- ASCII letter, the class `[A-Za-z]` of `re.search` in `validate_password`. -/
def is_ascii_letter (c : Char) : Bool :=
  ('A' ≤ c && c ≤ 'Z') || ('a' ≤ c && c ≤ 'z')

/-- ASCII digit, modelling the class `\d` of `re.search` in
`validate_password` (exact for ASCII passwords). -/
def is_ascii_digit (c : Char) : Bool := '0' ≤ c && c ≤ '9'

/-- `validate_password` from src/backend/utils.py: at least 8 characters,
at least one letter, at least one digit; returns `(ok, error message)`. -/
def validate_password (password : String) : Bool × String :=
  if password.length < 8 then
    (false, "Password must be at least 8 characters long")
  else if !password.data.any is_ascii_letter then
    (false, "Password must contain at least one letter")
  else if !password.data.any is_ascii_digit then
    (false, "Password must contain at least one number")
  else
    (true, "")

/-- Character class `[a-zA-Z0-9._%+-]` of the local part in `validate_email`. -/
def email_local_char (c : Char) : Bool :=
  is_ascii_letter c || is_ascii_digit c || c == '.' || c == '_' || c == '%' || c == '+' || c == '-'

/-- Character class `[a-zA-Z0-9.-]` of the domain part in `validate_email`. -/
def email_domain_char (c : Char) : Bool :=
  is_ascii_letter c || is_ascii_digit c || c == '.' || c == '-'

/-- Does `l ++ "@" ++ domain` split exist with a valid domain: the domain
must decompose as `d ++ "." ++ t` with `d` non-empty in `[a-zA-Z0-9.-]`,
`t` of length at least 2 all letters.  Since `t` admits no dot, the split
dot is the last dot of the domain; this recursion scans for it. -/
def email_domain_ok : List Char → Bool
  | [] => false
  | c :: cs =>
    -- a valid split strictly inside `c :: cs` keeps `c` in the `d` part
    (email_domain_char c && email_domain_ok cs) ||
    -- or `c` is the split dot: `cs` is the final `[a-zA-Z]{2,}` run
    (c == '.' && decide (2 ≤ cs.length) && cs.all is_ascii_letter)

/-- One-or-more local characters, then `@`, then a valid domain. -/
def email_chars_ok : List Char → Bool
  | [] => false
  | c :: cs =>
    if c == '@' then false
    else if email_local_char c then
      match cs with
      | '@' :: rest =>
        -- the local part may also keep absorbing characters before a later `@`
        email_domain_ok rest || email_chars_ok cs
      | _ => email_chars_ok cs
    else false

/-- `validate_email` from src/backend/utils.py: the anchored regex
`^[a-zA-Z0-9._%+-]+@[a-zA-Z0-9.-]+\.[a-zA-Z]{2,}$`. -/
def validate_email (email : String) : Bool := email_chars_ok email.data

/-- The bcrypt library calls of src/backend/utils.py (`hash_password`,
`verify_password`); the library is outside the repository, so it enters the
model as an abstract pair of functions: `hashpw` of the password, `checkpw`
of password and stored hash. -/
structure Bcrypt where
  hashpw : String → String
  checkpw : String → String → Bool

/-- A document of the `users` collection.  Every code path that writes a
user document sets `user_id`, `email`, `name` and `role`, so those are
plain fields; the rest are optional. -/
structure UserDoc where
  user_id : String
  email : String
  name : String
  picture : Option String := none
  role : String
  linked_coach_id : Option String := none
  password_hash : Option String := none
  auth_provider : Option String := none
  organization_id : Option String := none
deriving Repr, DecidableEq

/-- A document of the `user_sessions` collection (login / signup /
session-exchange write these). -/
structure SessionDoc where
  user_id : String
  session_token : String
  expires_at : Int
deriving Repr, DecidableEq

/-- A document of the `invites` collection, as `create_invite` writes it
(`role` is read back with `invite.get("role", "coach")`, hence optional). -/
structure InviteDoc where
  invite_id : String
  email : String
  role : Option String := none
  coach_id : Option String := none
  invited_by : Option String := none
  used : Bool := false
deriving Repr, DecidableEq

/-- A document of the `coaches` collection (fields the modelled paths
touch; legacy documents may lack `id`). -/
structure CoachDoc where
  id : Option String := none
  user_id : Option String := none
  name : Option String := none
  email : Option String := none
  photo : Option String := none
  has_account : Bool := false
  organization_id : Option String := none
deriving Repr, DecidableEq

/-- A document of the `observation_sessions` collection (access-control
fields only; the session content is not modelled). -/
structure ObservationSessionDoc where
  session_id : String
  observer_id : Option String := none
  coach_id : Option String := none
deriving Repr, DecidableEq

/-- A document of the `sessions` collection (the coach-facing mirror kept
by the sync endpoint; only its key matters to the modelled paths). -/
structure CoachSessionDoc where
  session_id : String
  coach_id : Option String := none
  observer_id : Option String := none
deriving Repr, DecidableEq

/-- A document of the `password_resets` collection. -/
structure PasswordResetDoc where
  email : String
  token : String
  expires_at : Int
deriving Repr, DecidableEq

/-- A document of the `organizations` collection. -/
structure OrgDoc where
  org_id : String
  owner_id : String
  club_name : Option String := none
  club_logo : Option String := none
deriving Repr, DecidableEq

/-- The database: the collections the modelled routes touch. -/
structure DB where
  users : List UserDoc := []
  user_sessions : List SessionDoc := []
  invites : List InviteDoc := []
  coaches : List CoachDoc := []
  observation_sessions : List ObservationSessionDoc := []
  sessions : List CoachSessionDoc := []
  password_resets : List PasswordResetDoc := []
  organizations : List OrgDoc := []
deriving Repr, DecidableEq

/-- The token of `auth_header[7:]` after a `"Bearer "` check (Python slices
by code point, as `List.drop` on the character list does). -/
def bearer_token (h : String) : String := ⟨h.data.drop 7⟩

/-- Does the header start with `"Bearer "` (`str.startswith`). -/
def bearer_hdr (h : String) : Bool := h.data.take 7 == "Bearer ".data

/-- Token selection of `get_current_user` in src/backend/server.py: the
`session_token` cookie first, else the `Authorization: Bearer` header;
`none` when after both steps the token is missing or empty. -/
def token_from_request (cookie auth_header : Option String) : Option String :=
  let tok :=
    if truthy cookie then cookie
    else
      match auth_header with
      | some h => if !h.isEmpty && bearer_hdr h then some (bearer_token h) else cookie
      | none => cookie
  if truthy tok then tok else none

/-- `get_current_user` from src/backend/server.py (the handler module the
application mounts): cookie-or-Bearer token, `user_sessions` lookup, expiry
comparison, then the `users` lookup. -/
def get_current_user (st : DB) (cookie auth_header : Option String) (now : Int) :
    Option UserDoc :=
  match token_from_request cookie auth_header with
  | none => none
  | some tok =>
    match st.user_sessions.find? (fun s => s.session_token == tok) with
    | none => none
    | some sd =>
      if sd.expires_at < now then none
      else st.users.find? (fun u => u.user_id == sd.user_id)

/-- `require_auth`: 401 when `get_current_user` yields no user. -/
def require_auth (st : DB) (cookie auth_header : Option String) (now : Int) :
    Resp UserDoc :=
  match get_current_user st cookie auth_header now with
  | none => .err ⟨401, "Not authenticated"⟩
  | some u => .ok u

/-- Role gate of `require_coach_developer` (identical in
src/backend/dependencies.py and src/backend/server.py), applied to the
already-authenticated user. -/
def require_coach_developer (user : UserDoc) : Resp UserDoc :=
  if user.role != "coach_developer" && user.role != "admin" then
    .err ⟨403, "Coach Developer role required"⟩
  else .ok user

/-- Role gate of `require_admin`, applied to the authenticated user. -/
def require_admin (user : UserDoc) : Resp UserDoc :=
  if user.role != "admin" then .err ⟨403, "Admin access required"⟩
  else .ok user

/-- `require_coach` from src/backend/server.py (the handler module the
application mounts), applied to the authenticated user: role gate, then
the coach-profile auto-link.  An existing coach profile matching the
user's email is linked through `existing_coach.get("id")` — which is
null when the profile has no id — and otherwise a fresh profile is
inserted (`fresh_coach_id` models `f"coach_{uuid.uuid4().hex[:12]}"`). -/
def require_coach (st : DB) (user : UserDoc) (fresh_coach_id : String) :
    Resp UserDoc × DB :=
  if user.role != "coach" then (.err ⟨403, "Coach access required"⟩, st)
  else if truthy user.linked_coach_id then (.ok user, st)
  else
    match st.coaches.find? (fun c => c.email == some user.email) with
    | some ec =>
      let st1 := { st with users := (update_first
          (fun u => u.user_id == user.user_id)
          (fun u => { u with linked_coach_id := ec.id }) st.users) }
      (.ok { user with linked_coach_id := ec.id }, st1)
    | none =>
      let new_coach : CoachDoc :=
        { id := some fresh_coach_id, name := some user.name,
          email := some user.email, photo := user.picture }
      let st1 := { st with coaches := st.coaches ++ [new_coach] }
      let st2 := { st1 with users := (update_first
          (fun u => u.user_id == user.user_id)
          (fun u => { u with linked_coach_id := some fresh_coach_id }) st1.users) }
      (.ok { user with linked_coach_id := some fresh_coach_id }, st2)

/-- `check_first_user` from src/backend/routes/users.py:
`{"is_first": count == 0}` over the `users` collection. -/
def check_first_user (st : DB) : Bool := st.users.length == 0

/-- `list_observation_sessions` from src/backend/routes/observations.py,
applied to the authenticated user: Coach Developer gate, then the
`{"observer_id": user.user_id}` query (`to_list(200)`; the
name-enrichment of the response items is not modelled). -/
def list_observation_sessions (st : DB) (user : UserDoc) :
    Resp (List ObservationSessionDoc) :=
  match require_coach_developer user with
  | .err e => .err e
  | .ok u =>
    .ok ((st.observation_sessions.filter
      (fun s => s.observer_id == some u.user_id)).take 200)

/-- `get_observation_session` from src/backend/server.py (the handler
module the application mounts), applied to the authenticated user: Coach
Developer gate, then the
`{"session_id": ..., "observer_id": user.user_id}` query; 404 when the
query matches nothing (the response enrichment is not modelled, the found
document is returned). -/
def get_observation_session (st : DB) (user : UserDoc) (session_id : String) :
    Resp ObservationSessionDoc :=
  match require_coach_developer user with
  | .err e => .err e
  | .ok u =>
    match st.observation_sessions.find?
        (fun s => s.session_id == session_id && s.observer_id == some u.user_id) with
    | none => .err ⟨404, "Session not found"⟩
    | some s => .ok s

/-- `delete_observation_session` from src/backend/routes/observations.py,
applied to the authenticated user: Coach Developer gate, `delete_one` of
`{"session_id": ..., "observer_id": user.user_id}`, 404 when it deleted
nothing, then the `sessions` mirror document is deleted too. -/
def delete_observation_session (st : DB) (user : UserDoc) (session_id : String) :
    Resp Unit × DB :=
  match require_coach_developer user with
  | .err e => (.err e, st)
  | .ok u =>
    let hit := fun (s : ObservationSessionDoc) =>
      s.session_id == session_id && s.observer_id == some u.user_id
    if !st.observation_sessions.any hit then
      (.err ⟨404, "Session not found"⟩, st)
    else
      let st1 := { st with
        observation_sessions := delete_first hit st.observation_sessions }
      let st2 := { st1 with
        sessions := delete_first (fun s => s.session_id == session_id) st1.sessions }
      (.ok (), st2)

/-- `validate_invite` response model (src/backend/models.py,
`InviteValidationResponse`). -/
structure InviteValidation where
  valid : Bool
  email : Option String := none
  name : Option String := none
  role : Option String := none
  error : Option String := none
deriving Repr, DecidableEq

/-- `validate_invite` from src/backend/routes/invites.py: look the invite
up by `invite_id`; invalid when missing or used; otherwise valid with the
invite's email, the invitee name off the linked coach profile, and the
role (default `"coach"`). -/
def validate_invite (st : DB) (invite_id : String) : InviteValidation :=
  match st.invites.find? (fun i => i.invite_id == invite_id) with
  | none => { valid := false, error := some "Invite not found" }
  | some inv =>
    if inv.used then
      { valid := false, error := some "This invitation has already been used" }
    else
      let invitee_name :=
        if truthy inv.coach_id then
          match st.coaches.find? (fun c => c.id == inv.coach_id) with
          | some c => c.name
          | none => none
        else none
      { valid := true, email := some inv.email, name := invitee_name,
        role := some (inv.role.getD "coach") }

/-- The JSON body `signup` returns on success. -/
structure SignupOk where
  user_id : String
  email : String
  name : String
  role : String
  linked_coach_id : Option String
  token : String
deriving Repr, DecidableEq

/-- `SignupRequest` from src/backend/models.py. -/
structure SignupRequest where
  email : String
  password : String
  name : String
  club_name : Option String := none
  club_logo : Option String := none
deriving Repr, DecidableEq

/-- `signup` from src/backend/routes/auth.py (POST /auth/signup): email
and password validation, duplicate-account check (case-insensitive),
first-user bootstrap or invite consumption, then user / organization /
coach-link / session writes.  `fresh_user_id`, `fresh_org_id` and
`session_token` model the freshly generated identifiers; `now` the clock.
Errors are raised before any write, so the state comes back unchanged
with them. -/
def signup (st : DB) (bc : Bcrypt) (d : SignupRequest)
    (fresh_user_id fresh_org_id session_token : String) (now : Int) :
    Resp SignupOk × DB :=
  if !validate_email d.email then (.err ⟨400, "Invalid email format"⟩, st)
  else if !(validate_password d.password).1 then
    (.err ⟨400, (validate_password d.password).2⟩, st)
  else
    let email_lower : String := ⟨lower_str d.email⟩
    if (st.users.find? (fun u => ci_eq u.email email_lower)).isSome then
      (.err ⟨400, "An account with this email already exists"⟩, st)
    else
      let branch : Resp (String × Option String × DB) :=
        if st.users.length == 0 then .ok ("coach_developer", none, st)
        else
          match st.invites.find? (fun i => ci_eq i.email email_lower && !i.used) with
          | some inv =>
            .ok (inv.role.getD "coach", inv.coach_id,
                 { st with invites := (update_first
                     (fun i => i.invite_id == inv.invite_id)
                     (fun i => { i with used := true }) st.invites) })
          | none =>
            .err ⟨403, "Registration requires an invite. Please contact a Coach Developer."⟩
      match branch with
      | .err e => (.err e, st)
      | .ok (user_role, linked_coach_id, st1) =>
        let new_user : UserDoc :=
          { user_id := fresh_user_id, email := d.email, name := d.name,
            password_hash := some (bc.hashpw d.password), picture := none,
            role := user_role, linked_coach_id := linked_coach_id,
            auth_provider := some "email" }
        let st2 := { st1 with users := st1.users ++ [new_user] }
        let st3 :=
          if user_role == "coach_developer" && (truthy d.club_name || truthy d.club_logo) then
            { st2 with organizations := st2.organizations ++
                [{ org_id := fresh_org_id, owner_id := fresh_user_id,
                   club_name := d.club_name, club_logo := d.club_logo }] }
          else st2
        let st4 :=
          if user_role == "coach" && truthy linked_coach_id then
            { st3 with coaches := (update_first (fun c => c.id == linked_coach_id)
                (fun c => { c with user_id := some fresh_user_id,
                                   has_account := true }) st3.coaches) }
          else st3
        let st5 := { st4 with user_sessions := st4.user_sessions ++
            [{ user_id := fresh_user_id, session_token := session_token,
               expires_at := now + 7 * 24 * 60 * 60 }] }
        (.ok { user_id := fresh_user_id, email := d.email, name := d.name,
               role := user_role, linked_coach_id := linked_coach_id,
               token := session_token }, st5)

/-- The data the Emergent Auth exchange yields for a valid `session_id`
(the external HTTP call of `exchange_session`; a failed exchange ends the
handler before any of the modelled logic runs). -/
structure AuthData where
  email : String
  name : String
  picture : Option String := none
  session_token : String
deriving Repr, DecidableEq

/-- The JSON body `exchange_session` returns on success. -/
structure ExchangeOk where
  user_id : String
  email : String
  name : String
  picture : Option String
  role : String
  linked_coach_id : Option String
deriving Repr, DecidableEq

/-- `exchange_session` from src/backend/routes/auth.py (POST
/auth/session), from the point where the external exchange returned
`AuthData`: existing Google users are updated and logged in; otherwise the
first-user bootstrap or an exact-match unused invite admits the account
(an invited coach is linked to the case-insensitive matching coach
profile, or a fresh one is inserted); a session document is always
written. -/
def exchange_session (st : DB) (a : AuthData)
    (fresh_coach_id fresh_user_id : String) (now : Int) :
    Resp ExchangeOk × DB :=
  let finish := fun (user_id : String) (role : String)
      (linked_coach_id : Option String) (st' : DB) =>
    (Resp.ok { user_id := user_id, email := a.email, name := a.name,
               picture := a.picture, role := role,
               linked_coach_id := linked_coach_id },
     { st' with user_sessions := st'.user_sessions ++
         [{ user_id := user_id, session_token := a.session_token,
            expires_at := now + 7 * 24 * 60 * 60 }] })
  match st.users.find? (fun u => u.email == a.email) with
  | some existing_user =>
    let st1 := { st with users := (update_first
        (fun u => u.user_id == existing_user.user_id)
        (fun u => { u with name := a.name, picture := a.picture }) st.users) }
    finish existing_user.user_id existing_user.role existing_user.linked_coach_id st1
  | none =>
    let invite := st.invites.find? (fun i => i.email == a.email && i.used == false)
    if st.users.length == 0 then
      let new_user : UserDoc :=
        { user_id := fresh_user_id, email := a.email, name := a.name,
          picture := a.picture, role := "coach_developer",
          linked_coach_id := none, auth_provider := some "google" }
      finish fresh_user_id "coach_developer" none
        { st with users := st.users ++ [new_user] }
    else
      match invite with
      | none =>
        (.err ⟨403, "Registration requires an invite. Please contact a Coach Developer."⟩, st)
      | some inv =>
        let user_role := inv.role.getD "coach"
        let st1 := { st with invites := (update_first
            (fun i => i.invite_id == inv.invite_id)
            (fun i => { i with used := true }) st.invites) }
        let link : Option String × DB :=
          if user_role == "coach" then
            match st1.coaches.find? (fun c =>
                match c.email with
                | some ce => ci_eq ce a.email
                | none => false) with
            | some existing_coach => (existing_coach.id, st1)
            | none =>
              let new_coach : CoachDoc :=
                { id := some fresh_coach_id, user_id := none,
                  name := some a.name, email := some a.email,
                  photo := a.picture } 
              (some fresh_coach_id,
               { st1 with coaches := st1.coaches ++ [new_coach] })
          else (inv.coach_id, st1)
        let linked_coach_id := link.1
        let st2 := link.2
        let new_user : UserDoc :=
          { user_id := fresh_user_id, email := a.email, name := a.name,
            picture := a.picture, role := user_role,
            linked_coach_id := linked_coach_id, auth_provider := some "google" }
        let st3 := { st2 with users := st2.users ++ [new_user] }
        let st4 :=
          if user_role == "coach" && truthy linked_coach_id then
            { st3 with coaches := (update_first (fun c => c.id == linked_coach_id)
                (fun c => { c with user_id := some fresh_user_id,
                                   photo := a.picture }) st3.coaches) }
          else st3
        finish fresh_user_id user_role linked_coach_id st4

/-- The JSON body `login` returns on success. -/
structure LoginOk where
  user_id : String
  email : String
  name : String
  picture : Option String
  role : String
  linked_coach_id : Option String
  auth_provider : String
  token : String
deriving Repr, DecidableEq

/-- `login` from src/backend/routes/auth.py (POST /auth/login): exact
email lookup; 401 `"Invalid email or password"` for a missing user or a
failed bcrypt check; 401 directing to Google sign-in when the document
carries no (non-empty) `password_hash`; on success a session valid for 7
days is inserted and the user's fields come back with the token. -/
def login (st : DB) (bc : Bcrypt) (email password : String)
    (session_token : String) (now : Int) : Resp LoginOk × DB :=
  match st.users.find? (fun u => u.email == email) with
  | none => (.err ⟨401, "Invalid email or password"⟩, st)
  | some u =>
    if !truthy u.password_hash then
      (.err ⟨401, "This account uses Google sign-in. Please use 'Sign in with Google'."⟩, st)
    else if !bc.checkpw password (u.password_hash.getD "") then
      (.err ⟨401, "Invalid email or password"⟩, st)
    else
      (.ok { user_id := u.user_id, email := u.email, name := u.name,
             picture := u.picture, role := u.role,
             linked_coach_id := u.linked_coach_id,
             auth_provider := u.auth_provider.getD "email",
             token := session_token },
       { st with user_sessions := st.user_sessions ++
           [{ user_id := u.user_id, session_token := session_token,
              expires_at := now + 7 * 24 * 60 * 60 }] })

/-- The uniform body POST /auth/forgot-password answers with. -/
def forgot_password_msg : String :=
  "If an account with this email exists, a password reset link has been sent."

/-- `forgot_password` from src/backend/routes/auth.py: for an existing
password account it replaces that email's reset documents by a fresh
one-hour token and tries to send the email (`email_send_ok` models whether
the external send succeeds; its failure is caught and logged).  Every
path, the outer exception handler included, answers the same message. -/
def forgot_password (st : DB) (email reset_token : String) (now : Int)
    (email_send_ok : Bool) : String × DB :=
  let _ := email_send_ok
  match st.users.find? (fun u => u.email == email) with
  | none => (forgot_password_msg, st)
  | some u =>
    if u.auth_provider == some "google" && !truthy u.password_hash then
      (forgot_password_msg, st)
    else
      let st1 := { st with password_resets :=
          ((st.password_resets.filter (fun r => !(r.email == email))) ++
           [{ email := email, token := reset_token, expires_at := now + 60 * 60 }]) }
      -- `email_send_ok = false` raises inside the inner try, is logged and
      -- swallowed; the response does not depend on it
      (forgot_password_msg, st1)

/-- `reset_password` from src/backend/routes/auth.py: token lookup, expiry
check (an expired token is deleted before the 400 comes back), password
validation, then the user's hash is replaced, the token deleted and the
user's sessions revoked. -/
def reset_password (st : DB) (bc : Bcrypt) (token new_password : String)
    (now : Int) : Resp String × DB :=
  match st.password_resets.find? (fun r => r.token == token) with
  | none => (.err ⟨400, "Invalid or expired reset token"⟩, st)
  | some rd =>
    if rd.expires_at < now then
      (.err ⟨400, "Reset token has expired"⟩,
       { st with password_resets :=
           delete_first (fun r => r.token == token) st.password_resets })
    else if !(validate_password new_password).1 then
      (.err ⟨400, (validate_password new_password).2⟩, st)
    else if !st.users.any (fun u => u.email == rd.email) then
      (.err ⟨400, "User not found"⟩, st)
    else
      let st1 := { st with users := (update_first (fun u => u.email == rd.email)
          (fun u => { u with password_hash := some (bc.hashpw new_password),
                             auth_provider := some "email" }) st.users) }
      let st2 := { st1 with password_resets :=
          (delete_first (fun r => r.token == token) st1.password_resets) }
      let st3 :=
        match st2.users.find? (fun u => u.email == rd.email) with
        | some u => { st2 with user_sessions :=
            (st2.user_sessions.filter (fun s => !(s.user_id == u.user_id))) }
        | none => st2
      (.ok "Password has been reset successfully. Please log in with your new password.", st3)

/-- `change_password` from src/backend/routes/auth.py, applied to the
authenticated user: current-hash presence and bcrypt check, password
validation, then the hash is replaced. -/
def change_password (st : DB) (bc : Bcrypt) (user : UserDoc)
    (current_password new_password : String) : Resp String × DB :=
  match st.users.find? (fun u => u.user_id == user.user_id) with
  | none => (.err ⟨404, "User not found"⟩, st)
  | some ud =>
    if !truthy ud.password_hash then
      (.err ⟨400, "Cannot change password for Google-only accounts"⟩, st)
    else if !bc.checkpw current_password (ud.password_hash.getD "") then
      (.err ⟨401, "Current password is incorrect"⟩, st)
    else if !(validate_password new_password).1 then
      (.err ⟨400, (validate_password new_password).2⟩, st)
    else
      (.ok "Password changed successfully",
       { st with users := (update_first (fun u => u.user_id == user.user_id)
           (fun u => { u with password_hash := some (bc.hashpw new_password) })
           st.users) })

/-- The characters of `email.split("@")[0]`: everything before the first
`@` (the whole string when there is none). -/
def email_name_part (email : String) : String :=
  ⟨email.data.takeWhile (fun c => !(c == '@'))⟩

/-- `InviteRegistrationRequest` from src/backend/server.py (`invite_id`
and `password` are required fields, `photo` optional). -/
structure InviteRegistrationRequest where
  invite_id : String
  password : String
  photo : Option String := none
deriving Repr, DecidableEq

/-- The JSON body `register_from_invite` returns on success (the `token`
and the nested `user` object, flattened). -/
structure RegisterInviteOk where
  token : String
  user_id : String
  email : String
  name : String
  role : String
  picture : Option String
deriving Repr, DecidableEq

/-- `register_from_invite` from src/backend/server.py (the mounted POST
/auth/register-invite): invite lookup by `invite_id` (404 when missing,
400 `"This invitation has already been used"` when consumed),
duplicate-account check, the display name off the linked coach profile
(defaulting to the email prefix), a length-only password check, the
inviter's organization, then the user insert, the coach-profile update,
and the invite's `used` flag.  The handler finally inserts a session
document carrying no `expires_at` field; `SessionDoc` is shaped by the
expiring sessions that login / signup / session exchange write and that
`get_current_user` compares, so that last insert is not modelled (no
claim concerns it). -/
def register_from_invite (st : DB) (bc : Bcrypt) (data : InviteRegistrationRequest)
    (fresh_user_id session_token : String) : Resp RegisterInviteOk × DB :=
  match st.invites.find? (fun i => i.invite_id == data.invite_id) with
  | none => (.err ⟨404, "Invalid invite"⟩, st)
  | some inv =>
    if inv.used then (.err ⟨400, "This invitation has already been used"⟩, st)
    else
      let email := inv.email
      let role := inv.role.getD "coach"
      let coach_id := inv.coach_id
      let invited_by := inv.invited_by
      if (st.users.find? (fun u => ci_eq u.email email)).isSome then
        (.err ⟨400, "An account with this email already exists"⟩, st)
      else
        let name :=
          if truthy coach_id then
            match st.coaches.find? (fun c => c.id == coach_id) with
            | some coach => coach.name.getD (email_name_part email)
            | none => email_name_part email
          else email_name_part email
        if data.password.length < 8 then
          (.err ⟨400, "Password must be at least 8 characters"⟩, st)
        else
          let organization_id : Option String :=
            match invited_by with
            | some ib =>
              if ib.isEmpty then none
              else
                match st.users.find? (fun v => v.user_id == ib) with
                | some inviter =>
                  if truthy inviter.organization_id then inviter.organization_id
                  else none
                | none => none
            | none => none
          let new_user : UserDoc :=
            { user_id := fresh_user_id, email := email, name := name,
              password_hash := some (bc.hashpw data.password), role := role,
              picture := data.photo, linked_coach_id := coach_id,
              organization_id := organization_id }
          let st1 := { st with users := st.users ++ [new_user] }
          let st2 :=
            if truthy coach_id then
              { st1 with coaches := (update_first (fun c => c.id == coach_id)
                  (fun c => { c with user_id := some fresh_user_id,
                                     photo := data.photo }) st1.coaches) }
            else st1
          let st3 := { st2 with invites := (update_first
              (fun i => i.invite_id == data.invite_id)
              (fun i => { i with used := true }) st2.invites) }
          (.ok { token := session_token, user_id := fresh_user_id,
                 email := email, name := name, role := role,
                 picture := data.photo }, st3)

/-- A concrete instantiation of the abstract bcrypt interface, used to
evaluate the handlers at concrete inputs: `checkpw` accepts exactly the
password whose `hashpw` image the hash is. -/
def bc_model : Bcrypt :=
  { hashpw := fun p => String.append "hash:" p,
    checkpw := fun p h => h == String.append "hash:" p }

/-- A one-user database: an existing account with an email for which no
unused invite exists. -/
def db_existing : DB :=
  { users := [{ user_id := "user_1", email := "alice@example.com",
                name := "Alice", role := "coach_developer" }] }

/-- The Google auth data of a returning visitor whose email already has an
account in `db_existing`. -/
def auth_existing : AuthData :=
  { email := "alice@example.com", name := "Alice", session_token := "tok_1" }

/-- A database holding exactly one yet-unused invite, to instantiate the
invite-consumption theorem. -/
def db_invite : DB := { invites := [{ invite_id := "i1", email := "c@x.co" }] }

/-- The registration body redeeming that invite. -/
def body_invite : InviteRegistrationRequest :=
  { invite_id := "i1", password := "passw0rd1" }

/-- The state after redeeming the invite of `db_invite`. -/
def db_invite_used : DB :=
  { users := [{ user_id := "u2", email := "c@x.co", name := "c", picture := none,
                role := "coach", linked_coach_id := none,
                password_hash := some "hash:passw0rd1",
                organization_id := none }],
    invites := [{ invite_id := "i1", email := "c@x.co", role := none,
                  coach_id := none, invited_by := none, used := true }] }

/-- A coach-role user document with no linked coach profile. -/
def user_coach : UserDoc :=
  { user_id := "u1", email := "a@b.co", name := "A", role := "coach" }

/-- A database holding only that user, and no coach profiles. -/
def db_coachless : DB := { users := [user_coach] }

/-- The user after the auto-link assigned the fresh coach id. -/
def user_coach_linked : UserDoc :=
  { user_coach with linked_coach_id := some "cF" }

/-- The database after `require_coach` inserted the fresh coach profile
and linked the user to it. -/
def db_coach_linked : DB :=
  { users := [user_coach_linked],
    coaches := [{ id := some "cF", name := some "A",
                  email := some "a@b.co", photo := none }] }

/-- A database whose only coach profile matches the coach-role user's
email but carries no id field. -/
def db_coach_noid : DB :=
  { users := [user_coach],
    coaches := [{ email := some "a@b.co", name := some "Old" }] }

/-! ## Helper lemmas on the Mongo list model -/

theorem find?_update_first_self {α : Type} (p : α → Bool) (f : α → α)
    (l : List α) (a : α) (h : l.find? p = some a) (hf : p (f a) = true) :
    (update_first p f l).find? p = some (f a) := by
  induction l with
  | nil => simp at h
  | cons x xs ih =>
    by_cases hx : p x = true
    · simp [List.find?_cons, hx] at h
      subst h
      simp [update_first, hx, List.find?_cons, hf]
    · simp only [Bool.not_eq_true] at hx
      simp [List.find?_cons, hx] at h
      simp [update_first, hx, List.find?_cons, ih h]

theorem mem_update_first {α : Type} (p : α → Bool) (f : α → α)
    (l : List α) (y : α) (hy : y ∈ update_first p f l) :
    y ∈ l ∨ ∃ x ∈ l, p x = true ∧ y = f x := by
  induction l with
  | nil => simp [update_first] at hy
  | cons x xs ih =>
    by_cases hx : p x = true
    · simp [update_first, hx] at hy
      rcases hy with h | h
      · exact Or.inr ⟨x, by simp, hx, h⟩
      · exact Or.inl (by simp [h])
    · simp only [Bool.not_eq_true] at hx
      simp [update_first, hx] at hy
      rcases hy with h | h
      · exact Or.inl (by simp [h])
      · rcases ih h with h' | ⟨z, hz, hpz, hyz⟩
        · exact Or.inl (by simp [h'])
        · exact Or.inr ⟨z, by simp [hz], hpz, hyz⟩

theorem forgot_password_fst (st : DB) (e tk : String) (now : Int) (ok : Bool) :
    (forgot_password st e tk now ok).1 = forgot_password_msg := by
  unfold forgot_password
  split
  · rfl
  · split
    · rfl
    · rfl

/-- C9: POST /auth/forgot-password answers the identical body — the
message `"If an account with this email exists, a password reset link has
been sent."` — whatever the state of the users collection (account
present, Google-only account without a password, or no account) and
whether the reset email could be sent; in particular two runs differing
only in account existence observe the same response. -/
theorem c9_forgot_password_uniform (st st2 : DB) (e tk tk2 : String)
    (now now2 : Int) (ok1 ok2 : Bool) :
    (forgot_password st e tk now ok1).1 =
      "If an account with this email exists, a password reset link has been sent."
    ∧ (forgot_password st e tk now ok1).1 = (forgot_password st2 e tk2 now2 ok2).1 := by
  refine ⟨forgot_password_fst st e tk now ok1, ?_⟩
  rw [forgot_password_fst, forgot_password_fst]

/-- Closed instance of `c9_forgot_password_uniform`: a database with a
Google-only account against the empty database. -/
theorem c9_forgot_password_uniform_witness :
    (forgot_password
        { users := [{ user_id := "u1", email := "g@x.com", name := "G",
                      role := "coach", auth_provider := some "google" }] }
        "g@x.com" "rt" 0 false).1 =
      "If an account with this email exists, a password reset link has been sent."
    ∧ (forgot_password
        { users := [{ user_id := "u1", email := "g@x.com", name := "G",
                      role := "coach", auth_provider := some "google" }] }
        "g@x.com" "rt" 0 false).1 = (forgot_password {} "g@x.com" "rt2" 5 true).1 :=
  c9_forgot_password_uniform
    { users := [{ user_id := "u1", email := "g@x.com", name := "G",
                  role := "coach", auth_provider := some "google" }] }
    {} "g@x.com" "rt" "rt2" 0 5 false true

/-- C5: route access is gated by exact role-string comparison on the
authenticated user: `require_admin` returns the user iff the role is
`"admin"` and raises 403 otherwise; `require_coach_developer` returns the
user iff the role is `"coach_developer"` or `"admin"` and raises 403
otherwise; `require_coach` raises 403 for any role other than `"coach"`
(leaving the state untouched). -/
theorem c5_role_gates (user : UserDoc) (st : DB) (cid : String) :
    (require_admin user = .ok user ↔ user.role = "admin")
    ∧ (user.role ≠ "admin" →
        require_admin user = .err ⟨403, "Admin access required"⟩)
    ∧ (require_coach_developer user = .ok user ↔
        (user.role = "coach_developer" ∨ user.role = "admin"))
    ∧ (user.role ≠ "coach_developer" → user.role ≠ "admin" →
        require_coach_developer user = .err ⟨403, "Coach Developer role required"⟩)
    ∧ (user.role ≠ "coach" →
        require_coach st user cid = (.err ⟨403, "Coach access required"⟩, st)) := by
  refine ⟨?_, ?_, ?_, ?_, ?_⟩
  · by_cases h : user.role = "admin" <;> simp [require_admin, h]
  · intro h; simp [require_admin, h]
  · by_cases h1 : user.role = "coach_developer"
    · simp [require_coach_developer, h1]
    · by_cases h2 : user.role = "admin" <;> simp [require_coach_developer, h1, h2]
  · intro h1 h2; simp [require_coach_developer, h1, h2]
  · intro h; simp [require_coach, h]

/-- Closed instance of `c5_role_gates` at a coach-role user: the admin and
coach-developer gates refuse, the coach gate admits nothing else. -/
theorem c5_role_gates_witness :
    require_admin { user_id := "u", email := "e@x.co", name := "N", role := "coach" } =
      .err ⟨403, "Admin access required"⟩
    ∧ require_coach_developer { user_id := "u", email := "e@x.co", name := "N", role := "coach" } =
      .err ⟨403, "Coach Developer role required"⟩ :=
  ⟨(c5_role_gates { user_id := "u", email := "e@x.co", name := "N", role := "coach" } {} "c").2.1
      (by decide),
   (c5_role_gates { user_id := "u", email := "e@x.co", name := "N", role := "coach" } {} "c").2.2.2.1
      (by decide) (by decide)⟩

/-- C7: POST /auth/login responds 401 `"Invalid email or password"` both
when no user document has the email and when the supplied password fails
the bcrypt check against the stored hash; responds 401 directing to Google
sign-in when the matched user has no (non-empty) `password_hash`; on
success it inserts a session document expiring 7 days after the current
time and returns the user's fields with the new session token. -/
theorem c7_login (st : DB) (bc : Bcrypt) (e p tk : String) (now : Int) :
    (st.users.find? (fun u => u.email == e) = none →
        login st bc e p tk now = (.err ⟨401, "Invalid email or password"⟩, st))
    ∧ (∀ u, st.users.find? (fun v => v.email == e) = some u →
        (truthy u.password_hash = false →
          login st bc e p tk now =
            (.err ⟨401, "This account uses Google sign-in. Please use 'Sign in with Google'."⟩, st))
        ∧ (∀ h, u.password_hash = some h → h ≠ "" → bc.checkpw p h = false →
            login st bc e p tk now = (.err ⟨401, "Invalid email or password"⟩, st))
        ∧ (∀ h, u.password_hash = some h → h ≠ "" → bc.checkpw p h = true →
            login st bc e p tk now =
              (.ok { user_id := u.user_id, email := u.email, name := u.name,
                     picture := u.picture, role := u.role,
                     linked_coach_id := u.linked_coach_id,
                     auth_provider := u.auth_provider.getD "email", token := tk },
               { st with user_sessions := st.user_sessions ++
                   [{ user_id := u.user_id, session_token := tk,
                      expires_at := now + 7 * 24 * 60 * 60 }] }))) := by
  constructor
  · intro h
    simp [login, h]
  · intro u hu
    refine ⟨?_, ?_, ?_⟩
    · intro hph
      simp [login, hu, hph]
    · intro h hh hne hc
      have hie : h.isEmpty = false := by
        rw [Bool.eq_false_iff]
        intro he
        exact hne ((String.isEmpty_iff h).mp he)
      simp [login, hu, truthy, hh, hie, hc]
    · intro h hh hne hc
      have hie : h.isEmpty = false := by
        rw [Bool.eq_false_iff]
        intro he
        exact hne ((String.isEmpty_iff h).mp he)
      simp [login, hu, truthy, hh, hie, hc]

/-- Closed instance of `c7_login`: a stored bcrypt hash, a successful
check, and the 7-day session insert. -/
theorem c7_login_witness :
    login { users := [{ user_id := "u1", email := "a@b.co", name := "A",
                        role := "coach_developer",
                        password_hash := some (String.append "hash:" "passw0rd"),
                        auth_provider := some "email" }] }
      bc_model "a@b.co" "passw0rd" "tk" 0 =
    (.ok { user_id := "u1", email := "a@b.co", name := "A", picture := none,
           role := "coach_developer", linked_coach_id := none,
           auth_provider := "email", token := "tk" },
     { users := [{ user_id := "u1", email := "a@b.co", name := "A",
                   role := "coach_developer",
                   password_hash := some (String.append "hash:" "passw0rd"),
                   auth_provider := some "email" }],
       user_sessions := [{ user_id := "u1", session_token := "tk",
                           expires_at := 0 + 7 * 24 * 60 * 60 }] }) :=
  ((c7_login { users := [{ user_id := "u1", email := "a@b.co", name := "A",
                           role := "coach_developer",
                           password_hash := some (String.append "hash:" "passw0rd"),
                           auth_provider := some "email" }] }
      bc_model "a@b.co" "passw0rd" "tk" 0).2
    { user_id := "u1", email := "a@b.co", name := "A", role := "coach_developer",
      password_hash := some (String.append "hash:" "passw0rd"),
      auth_provider := some "email" }
    (by decide)).2.2 (String.append "hash:" "passw0rd") rfl (by decide) (by decide)

theorem mem_append_singleton {α : Type} (l : List α) (x : α) : x ∈ l ++ [x] := by
  simp

/-- C2: `get_current_user` takes the token from the `session_token` cookie
or, when that is absent, from the `Authorization: Bearer` header; it looks
it up in the `user_sessions` collection — the one login, signup and the
session exchange insert issued tokens into — and yields no user (so
`require_auth` answers 401 `"Not authenticated"`) exactly when the token
is missing, not in that collection, expired (`expires_at` before the
current time), or the referenced `user_id` has no user document. -/
theorem c2_get_current_user (st : DB) (cookie hdr : Option String) (now : Int)
    (bc : Bcrypt) (e p tk : String) (d : SignupRequest) (a : AuthData)
    (uid oid cid : String) :
    (require_auth st cookie hdr now = .err ⟨401, "Not authenticated"⟩ ↔
      get_current_user st cookie hdr now = none)
    ∧ (get_current_user st cookie hdr now = none ↔
        (token_from_request cookie hdr = none
         ∨ (∃ tok, token_from_request cookie hdr = some tok
              ∧ st.user_sessions.find? (fun s => s.session_token == tok) = none)
         ∨ (∃ tok sd, token_from_request cookie hdr = some tok
              ∧ st.user_sessions.find? (fun s => s.session_token == tok) = some sd
              ∧ sd.expires_at < now)
         ∨ (∃ tok sd, token_from_request cookie hdr = some tok
              ∧ st.user_sessions.find? (fun s => s.session_token == tok) = some sd
              ∧ ¬sd.expires_at < now
              ∧ st.users.find? (fun u => u.user_id == sd.user_id) = none)))
    ∧ (truthy cookie = true → token_from_request cookie hdr = cookie)
    ∧ (∀ h, truthy cookie = false → hdr = some h → h ≠ "" → bearer_hdr h = true →
        token_from_request cookie hdr =
          (if truthy (some (bearer_token h)) then some (bearer_token h) else none))
    ∧ (∀ r st', login st bc e p tk now = (.ok r, st') →
        ∃ sd ∈ st'.user_sessions, sd.session_token = tk ∧ sd.user_id = r.user_id)
    ∧ (∀ r st', signup st bc d uid oid tk now = (.ok r, st') →
        ∃ sd ∈ st'.user_sessions, sd.session_token = tk ∧ sd.user_id = r.user_id)
    ∧ (∀ r st', exchange_session st a cid uid now = (.ok r, st') →
        ∃ sd ∈ st'.user_sessions, sd.session_token = a.session_token
          ∧ sd.user_id = r.user_id) := by
  refine ⟨?_, ?_, ?_, ?_, ?_, ?_, ?_⟩
  · cases h : get_current_user st cookie hdr now <;> simp [require_auth, h]
  · cases htok : token_from_request cookie hdr with
    | none =>
      simp only [get_current_user, htok]
      simp
    | some tok =>
      cases hsd : st.user_sessions.find? (fun s => s.session_token == tok) with
      | none =>
        simp only [get_current_user, htok, hsd]
        simp
        exact Or.inl (fun x hx => by simpa using List.find?_eq_none.mp hsd x hx)
      | some sd =>
        by_cases hexp : sd.expires_at < now
        · simp only [get_current_user, htok, hsd, if_pos hexp]
          simp [hexp]
          exact Or.inr (Or.inl ⟨sd, hsd, hexp⟩)
        · cases hu : st.users.find? (fun u => u.user_id == sd.user_id) with
          | none =>
            simp only [get_current_user, htok, hsd, if_neg hexp, hu]
            simp [hexp]
            exact Or.inr (Or.inr ⟨sd, hsd, not_lt.mp hexp,
              fun x hx => by simpa using List.find?_eq_none.mp hu x hx⟩)
          | some u =>
            simp only [get_current_user, htok, hsd, if_neg hexp, hu]
            simp [hexp]
            refine ⟨⟨sd, List.mem_of_find?_eq_some hsd,
                by simpa using List.find?_some hsd⟩, ?_, ?_⟩
            · intro x hx
              rw [hsd] at hx
              injection hx with hx
              subst hx
              exact not_lt.mp hexp
            · intro x hx hle
              rw [hsd] at hx
              injection hx with hx
              subst hx
              exact ⟨u, List.mem_of_find?_eq_some hu,
                by simpa using List.find?_some hu⟩
  · intro h
    simp [token_from_request, h]
  · intro h hc hh hne hb
    have hie : h.isEmpty = false := by
      rw [Bool.eq_false_iff]
      intro he
      exact hne ((String.isEmpty_iff h).mp he)
    subst hh
    simp [token_from_request, hc, hie, hb]
  · intro r st' hl
    unfold login at hl
    repeat' (first | (split at hl) | (simp only [] at hl))
    all_goals first
      | (exfalso; simp at hl; done)
      | (injection hl with h1 h2; injection h1 with h1; subst h2; subst h1;
         exact ⟨_, mem_append_singleton _ _, rfl, rfl⟩)
  · intro r st' hs
    unfold signup at hs
    repeat' (first | (split at hs) | (simp only [] at hs))
    all_goals first
      | (exfalso; simp at hs; done)
      | (injection hs with h1 h2; injection h1 with h1; subst h2; subst h1;
         exact ⟨_, mem_append_singleton _ _, rfl, rfl⟩)
  · intro r st' hx
    unfold exchange_session at hx
    repeat' (first | (split at hx) | (simp only [] at hx))
    all_goals first
      | (exfalso; simp at hx; done)
      | (injection hx with h1 h2; injection h1 with h1; subst h2; subst h1;
         exact ⟨_, mem_append_singleton _ _, rfl, rfl⟩)

/-- Closed instance of `c2_get_current_user`: with no cookie and no
header, `require_auth` answers 401 `"Not authenticated"`. -/
theorem c2_get_current_user_witness :
    require_auth {} none none 0 = .err ⟨401, "Not authenticated"⟩ :=
  (c2_get_current_user {} none none 0 bc_model "e" "p" "t"
      { email := "e", password := "p", name := "n" }
      { email := "e", name := "n", session_token := "t" } "u" "o" "c").1.mpr
    (by decide)

/-- C8: first-user bootstrap.  When the users collection is empty, both
the password signup (with a valid email and password) and the Google
session exchange create the account with no invite, assigning role
`"coach_developer"` and no linked coach profile; and
GET /users/check-first reports `is_first = true` exactly when the users
collection is empty. -/
theorem c8_first_user_bootstrap (st : DB) (bc : Bcrypt) (d : SignupRequest)
    (a : AuthData) (uid oid tk cid uid2 : String) (now : Int)
    (hempty : st.users = [])
    (hemail : validate_email d.email = true)
    (hpw : (validate_password d.password).1 = true) :
    ((signup st bc d uid oid tk now).1 =
        .ok { user_id := uid, email := d.email, name := d.name,
              role := "coach_developer", linked_coach_id := none, token := tk })
    ∧ (∃ u ∈ (signup st bc d uid oid tk now).2.users,
        u.user_id = uid ∧ u.role = "coach_developer" ∧ u.linked_coach_id = none)
    ∧ ((exchange_session st a cid uid2 now).1 =
        .ok { user_id := uid2, email := a.email, name := a.name,
              picture := a.picture, role := "coach_developer",
              linked_coach_id := none })
    ∧ (∃ u ∈ (exchange_session st a cid uid2 now).2.users,
        u.user_id = uid2 ∧ u.role = "coach_developer" ∧ u.linked_coach_id = none)
    ∧ check_first_user st = true
    ∧ (∀ st2 : DB, check_first_user st2 = true ↔ st2.users = []) := by
  refine ⟨?_, ?_, ?_, ?_, ?_, ?_⟩
  · simp [signup, hempty, hemail, hpw]
  · refine ⟨{ user_id := uid, email := d.email, name := d.name, picture := none,
              role := "coach_developer", linked_coach_id := none,
              password_hash := some (bc.hashpw d.password),
              auth_provider := some "email" }, ?_, rfl, rfl, rfl⟩
    simp [signup, hempty, hemail, hpw, apply_ite DB.users]
  · simp [exchange_session, hempty]
  · refine ⟨{ user_id := uid2, email := a.email, name := a.name,
              picture := a.picture, role := "coach_developer",
              linked_coach_id := none, auth_provider := some "google" }, ?_, rfl, rfl, rfl⟩
    simp [exchange_session, hempty]
  · simp [check_first_user, hempty]
  · intro st2
    simp [check_first_user, List.length_eq_zero]

/-- Closed instance of `c8_first_user_bootstrap` on the empty database. -/
theorem c8_first_user_bootstrap_witness :
    (signup {} bc_model { email := "root@x.co", password := "passw0rd1", name := "R" }
        "u1" "o1" "tk" 0).1 =
      .ok { user_id := "u1", email := "root@x.co", name := "R",
            role := "coach_developer", linked_coach_id := none, token := "tk" }
    ∧ check_first_user {} = true :=
  ⟨(c8_first_user_bootstrap {} bc_model
      { email := "root@x.co", password := "passw0rd1", name := "R" }
      { email := "g@x.co", name := "G", session_token := "t2" }
      "u1" "o1" "tk" "c1" "u2" 0 rfl (by decide) (by decide)).1,
   (c8_first_user_bootstrap {} bc_model
      { email := "root@x.co", password := "passw0rd1", name := "R" }
      { email := "g@x.co", name := "G", session_token := "t2" }
      "u1" "o1" "tk" "c1" "u2" 0 rfl (by decide) (by decide)).2.2.2.2.1⟩

/-- Counterexample to C4 as stated: with a non-empty users collection and
an email that has no unused invite — it belongs to an existing account —
the Google session exchange does not fail with 403: it updates and logs in
the existing user. -/
theorem c4_counterexample :
    db_existing.users.length ≠ 0
    ∧ db_existing.invites = []
    ∧ (exchange_session db_existing auth_existing "c9" "u9" 0).1 ≠
        .err ⟨403, "Registration requires an invite. Please contact a Coach Developer."⟩
    ∧ (exchange_session db_existing auth_existing "c9" "u9" 0).1 =
        .ok { user_id := "user_1", email := "alice@example.com", name := "Alice",
              picture := none, role := "coach_developer", linked_coach_id := none } := by
  refine ⟨by decide, rfl, by decide, by decide⟩

/-- C4 (amended): when the users collection is non-empty, password signup
(with a well-formed email and password) and the Google session exchange
fail with 403 `"Registration requires an invite. Please contact a Coach
Developer."` for any email that has no existing account and no unused
invite, and the database — in particular the users collection — is
unchanged, so no user document is inserted. -/
theorem c4_invite_gate_amended (st : DB) (bc : Bcrypt) (d : SignupRequest)
    (a : AuthData) (uid oid tk cid uid2 : String) (now : Int)
    (hne : st.users ≠ [])
    (hemail : validate_email d.email = true)
    (hpw : (validate_password d.password).1 = true)
    (hnouser_s : ∀ u ∈ st.users, ci_eq u.email ⟨lower_str d.email⟩ = false)
    (hnoinv_s : ∀ i ∈ st.invites, ci_eq i.email ⟨lower_str d.email⟩ = true → i.used = true)
    (hnouser_e : ∀ u ∈ st.users, u.email ≠ a.email)
    (hnoinv_e : ∀ i ∈ st.invites, i.email = a.email → i.used = true) :
    signup st bc d uid oid tk now =
      (.err ⟨403, "Registration requires an invite. Please contact a Coach Developer."⟩, st)
    ∧ exchange_session st a cid uid2 now =
      (.err ⟨403, "Registration requires an invite. Please contact a Coach Developer."⟩, st) := by
  have hlen : (st.users.length == 0) = false := by
    simp [List.length_eq_zero, hne]
  constructor
  · have hfu : st.users.find? (fun u => ci_eq u.email ⟨lower_str d.email⟩) = none :=
      List.find?_eq_none.mpr (fun u hu => by simp [hnouser_s u hu])
    have hfi : st.invites.find?
        (fun i => ci_eq i.email ⟨lower_str d.email⟩ && !i.used) = none :=
      List.find?_eq_none.mpr (fun i hi => by
        by_cases hc : ci_eq i.email ⟨lower_str d.email⟩ = true
        · simp [hc, hnoinv_s i hi hc]
        · rw [Bool.not_eq_true] at hc
          simp [hc])
    simp [signup, hemail, hpw, hfu, hfi, hlen]
  · have hfu : st.users.find? (fun u => u.email == a.email) = none :=
      List.find?_eq_none.mpr (fun u hu => by simp [hnouser_e u hu])
    have hfi : st.invites.find?
        (fun i => i.email == a.email && i.used == false) = none :=
      List.find?_eq_none.mpr (fun i hi => by
        by_cases hc : i.email = a.email
        · simp [hc, hnoinv_e i hi hc]
        · simp [hc])
    have hfi2 : st.invites.find? (fun i => i.email == a.email && !i.used) = none :=
      List.find?_eq_none.mpr (fun i hi => by
        by_cases hc : i.email = a.email
        · simp [hc, hnoinv_e i hi hc]
        · simp [hc])
    simp [exchange_session, hfu, hfi, hfi2, hlen]

/-- Closed instance of `c4_invite_gate_amended`: a database holding one
account and one already-used invite refuses a different email on both
onboarding paths. -/
theorem c4_invite_gate_amended_witness :
    signup { users := [{ user_id := "user_1", email := "alice@example.com",
                         name := "Alice", role := "coach_developer" }],
             invites := [{ invite_id := "i1", email := "bob@x.co", used := true }] }
      bc_model { email := "bob@x.co", password := "passw0rd1", name := "Bob" }
      "u2" "o2" "tk" 0 =
      (.err ⟨403, "Registration requires an invite. Please contact a Coach Developer."⟩,
       { users := [{ user_id := "user_1", email := "alice@example.com",
                     name := "Alice", role := "coach_developer" }],
         invites := [{ invite_id := "i1", email := "bob@x.co", used := true }] }) :=
  (c4_invite_gate_amended
    { users := [{ user_id := "user_1", email := "alice@example.com",
                  name := "Alice", role := "coach_developer" }],
      invites := [{ invite_id := "i1", email := "bob@x.co", used := true }] }
    bc_model { email := "bob@x.co", password := "passw0rd1", name := "Bob" }
    { email := "bob@x.co", name := "Bob", session_token := "t" }
    "u2" "o2" "tk" "c2" "u3" 0
    (by decide) (by decide) (by decide) (by decide) (by decide)
    (by decide) (by decide)).1

theorem update_first_mem_of_find? {α : Type} (p : α → Bool) (f : α → α)
    (l : List α) (a : α) (h : l.find? p = some a) :
    f a ∈ update_first p f l := by
  induction l with
  | nil => simp at h
  | cons x xs ih =>
    by_cases hx : p x = true
    · simp [List.find?_cons, hx] at h
      subst h
      simp [update_first, hx]
    · simp only [Bool.not_eq_true] at hx
      simp [List.find?_cons, hx] at h
      simp [update_first, hx, ih h]

/-- Counterexample to C1 as stated: the mounted GET
/observations/{session_id} is gated by `require_coach_developer`, so a
coach-role caller whose `linked_coach_id` equals an existing session's
`coach_id` receives 403 — not the session the claim promises, and not
404. -/
theorem c1_counterexample :
    ({ user_id := "u9", email := "c@x.co", name := "C", role := "coach",
       linked_coach_id := some "c1" } : UserDoc).linked_coach_id =
      ({ session_id := "s1", observer_id := some "obs1",
         coach_id := some "c1" } : ObservationSessionDoc).coach_id
    ∧ get_observation_session
        { observation_sessions := [{ session_id := "s1", observer_id := some "obs1",
                                     coach_id := some "c1" }] }
        { user_id := "u9", email := "c@x.co", name := "C", role := "coach",
          linked_coach_id := some "c1" } "s1"
        = .err ⟨403, "Coach Developer role required"⟩ :=
  ⟨rfl, by decide⟩

/-- C1 (amended): GET /observations lists only sessions whose
`observer_id` is the caller's `user_id`.  GET /observations/{session_id}
is gated by `require_coach_developer`: a coach-role caller receives 403
`"Coach Developer role required"`, and a caller passing the gate is
returned a session only when its `observer_id` equals their `user_id`,
with 404 `"Session not found"` otherwise.  DELETE
/observations/{session_id} deletes only a session whose `observer_id`
equals the caller's `user_id` and answers 404 when the caller owns no
such session. -/
theorem c1_observation_access_amended (st : DB) (user : UserDoc) (sid : String) :
    (∀ l, list_observation_sessions st user = .ok l →
      ∀ s ∈ l, s.observer_id = some user.user_id)
    ∧ (user.role = "coach" →
        get_observation_session st user sid =
          .err ⟨403, "Coach Developer role required"⟩)
    ∧ (∀ s, get_observation_session st user sid = .ok s →
        s.session_id = sid ∧ s.observer_id = some user.user_id)
    ∧ (require_coach_developer user = .ok user →
        (∀ s ∈ st.observation_sessions,
          ¬(s.session_id = sid ∧ s.observer_id = some user.user_id)) →
        get_observation_session st user sid = .err ⟨404, "Session not found"⟩)
    ∧ (∀ st', delete_observation_session st user sid = (.ok (), st') →
        ∃ s ∈ st.observation_sessions,
          s.session_id = sid ∧ s.observer_id = some user.user_id)
    ∧ (require_coach_developer user = .ok user →
        (∀ s ∈ st.observation_sessions,
          ¬(s.session_id = sid ∧ s.observer_id = some user.user_id)) →
        delete_observation_session st user sid =
          (.err ⟨404, "Session not found"⟩, st)) := by
  refine ⟨?_, ?_, ?_, ?_, ?_, ?_⟩
  · intro l hl s hs
    unfold list_observation_sessions at hl
    split at hl
    · simp at hl
    · rename_i u heq
      have hu : u = user := by
        unfold require_coach_developer at heq
        split at heq
        · simp at heq
        · injection heq with h
          exact h.symm
      subst hu
      injection hl with hl
      subst hl
      have := List.mem_filter.mp (List.mem_of_mem_take hs)
      simpa using this.2
  · intro hrole
    have hg : require_coach_developer user =
        .err ⟨403, "Coach Developer role required"⟩ := by
      simp [require_coach_developer, hrole]
    simp [get_observation_session, hg]
  · intro s hok
    unfold get_observation_session at hok
    split at hok
    · simp at hok
    · rename_i u heq
      have hu : user = u := by
        unfold require_coach_developer at heq
        split at heq
        · simp at heq
        · injection heq
      subst hu
      cases hf : st.observation_sessions.find?
          (fun s => s.session_id == sid && s.observer_id == some user.user_id) with
      | none => rw [hf] at hok; simp at hok
      | some s0 =>
        rw [hf] at hok
        injection hok with h
        subst h
        have := List.find?_some hf
        simpa using this
  · intro hgate hnone
    unfold get_observation_session
    rw [hgate]
    simp only []
    rw [List.find?_eq_none.mpr]
    intro s hs
    simpa using hnone s hs
  · intro st' hdel
    unfold delete_observation_session at hdel
    split at hdel
    · simp at hdel
    · simp only [] at hdel
      split at hdel
      · simp at hdel
      · rename_i u heq hany
        have hu : u = user := by
          unfold require_coach_developer at heq
          split at heq
          · simp at heq
          · injection heq with h
            exact h.symm
        subst hu
        rw [Bool.not_eq_true', Bool.not_eq_false] at hany
        have := List.any_eq_true.mp hany
        obtain ⟨s, hs, hp⟩ := this
        exact ⟨s, hs, by simpa using hp⟩
  · intro hgate hnone
    unfold delete_observation_session
    rw [hgate]
    have hany : st.observation_sessions.any
        (fun s => s.session_id == sid && s.observer_id == some user.user_id) = false := by
      rw [← Bool.not_eq_true, List.any_eq_true]
      rintro ⟨s, hs, hp⟩
      exact hnone s hs (by simpa using hp)
    simp only []
    rw [hany]
    rfl

/-- Closed instance of `c1_observation_access_amended`: a Coach Developer
caller gets 404 when no owned session matches. -/
theorem c1_observation_access_amended_witness :
    get_observation_session {}
      { user_id := "cd1", email := "d@x.co", name := "D", role := "coach_developer" }
      "s1" = .err ⟨404, "Session not found"⟩ :=
  (c1_observation_access_amended {}
      { user_id := "cd1", email := "d@x.co", name := "D", role := "coach_developer" }
      "s1").2.2.2.1 (by decide) (by decide)

/-- Counterexample to C10 as stated: the mounted register-invite endpoint
checks only the password's length, so the digit-less password
`"abcdefgh"` — which `validate_password` rejects — is accepted and the
account is created. -/
theorem c10_counterexample :
    (validate_password "abcdefgh").1 = false
    ∧ (register_from_invite db_invite bc_model
        { invite_id := "i1", password := "abcdefgh" } "u2" "tk2").1 =
      .ok { token := "tk2", user_id := "u2", email := "c@x.co", name := "c",
            role := "coach", picture := none } :=
  ⟨by decide, by decide⟩

/-- C10 (amended): `validate_password` accepts exactly the strings of
length at least 8 containing a letter and a digit (returning `(true, "")`
there); signup, reset-password and change-password reject a password
failing those conditions with a 400-level error; the register-invite
endpoint applies only the length rule, rejecting a password shorter than
8 characters with a 400-level error.  Rejections leave the state the
handler had mutated nothing of unchanged (reset-password may first drop
an expired token). -/
theorem c10_password_policy_amended (st : DB) (bc : Bcrypt) (p : String)
    (data : InviteRegistrationRequest) (d : SignupRequest) (u : UserDoc)
    (cur tokn uid oid tk : String) (now : Int) :
    ((validate_password p).1 = true ↔
      (8 ≤ p.length ∧ p.data.any is_ascii_letter = true ∧ p.data.any is_ascii_digit = true))
    ∧ ((validate_password p).1 = true → validate_password p = (true, ""))
    ∧ ((validate_password d.password).1 = false →
        ∃ e, signup st bc d uid oid tk now = (.err e, st)
          ∧ 400 ≤ e.status ∧ e.status < 500)
    ∧ (data.password.length < 8 →
        ∃ e, register_from_invite st bc data uid tk = (.err e, st)
          ∧ 400 ≤ e.status ∧ e.status < 500)
    ∧ ((validate_password p).1 = false →
        ∃ e st1, reset_password st bc tokn p now = (.err e, st1)
          ∧ 400 ≤ e.status ∧ e.status < 500)
    ∧ ((validate_password p).1 = false →
        ∃ e, change_password st bc u cur p = (.err e, st)
          ∧ 400 ≤ e.status ∧ e.status < 500) := by
  refine ⟨?_, ?_, ?_, ?_, ?_, ?_⟩
  · unfold validate_password
    split_ifs with h1 h2 h3
    all_goals simp_all [not_lt, Bool.not_eq_true]
  · intro h
    unfold validate_password at h ⊢
    split_ifs at h ⊢
    all_goals simp_all
  · intro hv
    cases hve : validate_email d.email with
    | false =>
      exact ⟨⟨400, "Invalid email format"⟩, by simp [signup, hve],
        by decide, by decide⟩
    | true =>
      exact ⟨⟨400, (validate_password d.password).2⟩,
        by simp [signup, hve, hv], by norm_num, by norm_num⟩
  · intro hlen
    cases hfind : st.invites.find? (fun i => i.invite_id == data.invite_id) with
    | none =>
      exact ⟨⟨404, "Invalid invite"⟩, by simp [register_from_invite, hfind],
        by decide, by decide⟩
    | some inv =>
      by_cases hused : inv.used = true
      · exact ⟨⟨400, "This invitation has already been used"⟩,
          by simp [register_from_invite, hfind, hused], by decide, by decide⟩
      · by_cases hex : (st.users.find? (fun v => ci_eq v.email inv.email)).isSome = true
        · exact ⟨⟨400, "An account with this email already exists"⟩,
            by simp [register_from_invite, hfind, hused, hex], by decide, by decide⟩
        · rw [Bool.not_eq_true] at hused
          exact ⟨⟨400, "Password must be at least 8 characters"⟩,
            by simp [register_from_invite, hfind, hused, hex, hlen],
            by decide, by decide⟩
  · intro hv
    cases hfind : st.password_resets.find? (fun r => r.token == tokn) with
    | none =>
      exact ⟨⟨400, "Invalid or expired reset token"⟩, st,
        by simp [reset_password, hfind], by decide, by decide⟩
    | some rd =>
      by_cases hexp : rd.expires_at < now
      · exact ⟨⟨400, "Reset token has expired"⟩,
          { st with password_resets :=
              delete_first (fun r => r.token == tokn) st.password_resets },
          by simp [reset_password, hfind, hexp], by decide, by decide⟩
      · exact ⟨⟨400, (validate_password p).2⟩, st,
          by simp [reset_password, hfind, hexp, hv], by norm_num, by norm_num⟩
  · intro hv
    cases hfind : st.users.find? (fun v => v.user_id == u.user_id) with
    | none =>
      exact ⟨⟨404, "User not found"⟩, by simp [change_password, hfind],
        by decide, by decide⟩
    | some ud =>
      by_cases hph : truthy ud.password_hash = true
      · by_cases hchk : bc.checkpw cur (ud.password_hash.getD "") = true
        · exact ⟨⟨400, (validate_password p).2⟩,
            by simp [change_password, hfind, hph, hchk, hv], by norm_num, by norm_num⟩
        · rw [Bool.not_eq_true] at hchk
          exact ⟨⟨401, "Current password is incorrect"⟩,
            by simp [change_password, hfind, hph, hchk], by decide, by decide⟩
      · rw [Bool.not_eq_true] at hph
        exact ⟨⟨400, "Cannot change password for Google-only accounts"⟩,
          by simp [change_password, hfind, hph], by decide, by decide⟩

/-- Closed instance of `c10_password_policy_amended`: an all-letter
password is refused by signup, and a short one by register-invite. -/
theorem c10_password_policy_amended_witness :
    (∃ e, signup {} bc_model
        { email := "a@b.co", password := "passwordonly", name := "N" }
        "u1" "o1" "tk" 0 = (.err e, ({} : DB)) ∧ 400 ≤ e.status ∧ e.status < 500)
    ∧ (∃ e, register_from_invite db_invite bc_model
        { invite_id := "i1", password := "pw1" } "u1" "tk" =
          (.err e, db_invite) ∧ 400 ≤ e.status ∧ e.status < 500) :=
  ⟨(c10_password_policy_amended {} bc_model "passwordonly"
      { invite_id := "i1", password := "pw1" }
      { email := "a@b.co", password := "passwordonly", name := "N" }
      { user_id := "u", email := "a@b.co", name := "N", role := "coach" }
      "cur" "tok" "u1" "o1" "tk" 0).2.2.1 (by decide),
   (c10_password_policy_amended db_invite bc_model "passwordonly"
      { invite_id := "i1", password := "pw1" }
      { email := "a@b.co", password := "passwordonly", name := "N" }
      { user_id := "u", email := "a@b.co", name := "N", role := "coach" }
      "cur" "tok" "u1" "o1" "tk" 0).2.2.2.1 (by decide)⟩

/-- Counterexample to C3 as stated: a second registration against a
consumed invite fails with detail `"This invitation has already been
used"`, not the claim's quoted `"This invite has already been used"`. -/
theorem c3_counterexample :
    (register_from_invite db_invite_used bc_model body_invite "u3" "tk3").1 =
      .err ⟨400, "This invitation has already been used"⟩
    ∧ (register_from_invite db_invite_used bc_model body_invite "u3" "tk3").1 ≠
      .err ⟨400, "This invite has already been used"⟩ :=
  ⟨by decide, by decide⟩

/-- C3 (amended): an invite is single-use and consumed at registration.
A successful register-invite call (`register_from_invite`) found the
invite of the given `invite_id` with `used = false`, created the user
with exactly the invite's email, role (default `"coach"`) and coach
link, and set `used` to `true`; afterwards any second call with the same
`invite_id` fails with 400 `"This invitation has already been used"`,
and `validate_invite` reports the invite invalid. -/
theorem c3_invite_single_use_amended (st : DB) (bc : Bcrypt)
    (data : InviteRegistrationRequest) (uid tk uid2 tk2 : String)
    (r : RegisterInviteOk) (st' : DB)
    (hreg : register_from_invite st bc data uid tk = (.ok r, st')) :
    ∃ inv, st.invites.find? (fun i => i.invite_id == data.invite_id) = some inv
      ∧ inv.used = false
      ∧ r.email = inv.email ∧ r.role = inv.role.getD "coach"
      ∧ (∃ u ∈ st'.users, u.user_id = uid ∧ u.email = inv.email
          ∧ u.role = inv.role.getD "coach" ∧ u.linked_coach_id = inv.coach_id)
      ∧ st'.invites.find? (fun i => i.invite_id == data.invite_id)
          = some { inv with used := true }
      ∧ (∀ d2 : InviteRegistrationRequest, d2.invite_id = data.invite_id →
          register_from_invite st' bc d2 uid2 tk2 =
            (.err ⟨400, "This invitation has already been used"⟩, st'))
      ∧ validate_invite st' data.invite_id =
          { valid := false, error := some "This invitation has already been used" } := by
  unfold register_from_invite at hreg
  cases hfind : st.invites.find? (fun i => i.invite_id == data.invite_id) with
  | none =>
    rw [hfind] at hreg
    exact absurd hreg (by simp)
  | some inv =>
    rw [hfind] at hreg
    simp only [] at hreg
    by_cases hused : inv.used = true
    · rw [if_pos hused] at hreg
      exact absurd hreg (by simp)
    · rw [if_neg hused] at hreg
      by_cases hex : (st.users.find? (fun v => ci_eq v.email inv.email)).isSome = true
      · rw [if_pos hex] at hreg
        exact absurd hreg (by simp)
      · rw [if_neg hex] at hreg
        by_cases hlen : data.password.length < 8
        · rw [if_pos hlen] at hreg
          exact absurd hreg (by simp)
        · rw [if_neg hlen] at hreg
          have hupd : (update_first (fun i => i.invite_id == data.invite_id)
              (fun i => { i with used := true }) st.invites).find?
              (fun i => i.invite_id == data.invite_id)
              = some { inv with used := true } :=
            find?_update_first_self _ _ _ _ hfind
              (by simpa using List.find?_some hfind)
          rw [Bool.not_eq_true] at hused
          by_cases hcoach : truthy inv.coach_id = true
          · simp only [if_pos hcoach] at hreg
            injection hreg with hA hB
            injection hA with hA
            subst hA
            subst hB
            refine ⟨inv, rfl, hused, rfl, rfl,
              ⟨_, mem_append_singleton _ _, rfl, rfl, rfl, rfl⟩, hupd, ?_, ?_⟩
            · intro d2 hd2
              simp [register_from_invite, hd2, hupd]
            · simp [validate_invite, hupd]
          · simp only [if_neg hcoach] at hreg
            injection hreg with hA hB
            injection hA with hA
            subst hA
            subst hB
            refine ⟨inv, rfl, hused, rfl, rfl,
              ⟨_, mem_append_singleton _ _, rfl, rfl, rfl, rfl⟩, hupd, ?_, ?_⟩
            · intro d2 hd2
              simp [register_from_invite, hd2, hupd]
            · simp [validate_invite, hupd]

/-- Closed instance of `c3_invite_single_use_amended`: redeem the one
invite of `db_invite`; the second redemption fails and validation
rejects it. -/
theorem c3_invite_single_use_amended_witness :
    ∃ inv, db_invite.invites.find?
        (fun i => i.invite_id == body_invite.invite_id) = some inv
      ∧ inv.used = false
      ∧ ({ token := "tk2", user_id := "u2", email := "c@x.co", name := "c",
           role := "coach", picture := none } : RegisterInviteOk).email = inv.email
      ∧ ({ token := "tk2", user_id := "u2", email := "c@x.co", name := "c",
           role := "coach", picture := none } : RegisterInviteOk).role =
          inv.role.getD "coach"
      ∧ (∃ u ∈ db_invite_used.users, u.user_id = "u2" ∧ u.email = inv.email
          ∧ u.role = inv.role.getD "coach" ∧ u.linked_coach_id = inv.coach_id)
      ∧ db_invite_used.invites.find?
          (fun i => i.invite_id == body_invite.invite_id)
          = some { inv with used := true }
      ∧ (∀ d2 : InviteRegistrationRequest, d2.invite_id = body_invite.invite_id →
          register_from_invite db_invite_used bc_model d2 "u3" "tk3" =
            (.err ⟨400, "This invitation has already been used"⟩, db_invite_used))
      ∧ validate_invite db_invite_used body_invite.invite_id =
          { valid := false, error := some "This invitation has already been used" } :=
  c3_invite_single_use_amended db_invite bc_model body_invite "u2" "tk2" "u3" "tk3"
    { token := "tk2", user_id := "u2", email := "c@x.co", name := "c",
      role := "coach", picture := none }
    db_invite_used (by decide)

/-- Counterexample to C6 as stated: the mounted `require_coach` links
`existing_coach.get("id")` with no null check and no fresh-id repair,
so for an email-matching coach profile lacking an id the call succeeds
with `linked_coach_id` still null — not the claimed non-null link. -/
theorem c6_counterexample :
    (db_coach_noid.coaches.find?
      (fun c => c.email == some user_coach.email)).isSome = true
    ∧ require_coach db_coach_noid user_coach "cF" = (.ok user_coach, db_coach_noid)
    ∧ user_coach.linked_coach_id = none :=
  ⟨by decide, by decide, rfl⟩

/-- C6 (amended): whenever `require_coach` succeeds for a coach-role user
(built from their stored document), the returned user's
`linked_coach_id` is mirrored by the user's document in the users
collection; an already-linked user keeps their link, and a user with no
link is linked to the id field of the existing coach profile matching
their email — which stays null when that profile lacks an id — or
otherwise to a newly inserted profile, carrying the user's name, email
and picture, under the fresh id. -/
theorem c6_coach_autolink_amended (st : DB) (user : UserDoc) (fresh : String)
    (u' : UserDoc) (st' : DB)
    (hrole : user.role = "coach")
    (hex : (st.users.find? (fun w => w.user_id == user.user_id)).isSome = true)
    (hdoc : ∀ v, st.users.find? (fun w => w.user_id == user.user_id) = some v →
      v.linked_coach_id = user.linked_coach_id)
    (hrun : require_coach st user fresh = (.ok u', st')) :
    ∃ lc : Option String, u'.linked_coach_id = lc
      ∧ (∃ v, st'.users.find? (fun w => w.user_id == user.user_id) = some v
           ∧ v.linked_coach_id = lc)
      ∧ (truthy user.linked_coach_id = true → lc = user.linked_coach_id ∧ st' = st)
      ∧ (truthy user.linked_coach_id = false →
          match st.coaches.find? (fun c => c.email == some user.email) with
          | some ec => lc = ec.id
          | none => lc = some fresh
              ∧ ∃ c ∈ st'.coaches, c.id = some fresh ∧ c.name = some user.name
                  ∧ c.email = some user.email ∧ c.photo = user.picture) := by
  obtain ⟨v0, hv0⟩ := Option.isSome_iff_exists.mp hex
  have hv0p := List.find?_some hv0
  unfold require_coach at hrun
  rw [if_neg (by simp [hrole])] at hrun
  by_cases htr : truthy user.linked_coach_id = true
  · rw [if_pos htr] at hrun
    injection hrun with hA hB
    injection hA with hA
    subst hA
    subst hB
    exact ⟨user.linked_coach_id, rfl, ⟨v0, hv0, hdoc v0 hv0⟩,
      fun _ => ⟨rfl, rfl⟩, fun hf => absurd (hf.symm.trans htr) (by simp)⟩
  · rw [if_neg htr] at hrun
    cases hec : st.coaches.find? (fun c => c.email == some user.email) with
    | some ec =>
      rw [hec] at hrun
      simp only [] at hrun
      injection hrun with hA hB
      injection hA with hA
      subst hA
      subst hB
      have hfu : (update_first (fun w => w.user_id == user.user_id)
          (fun u => { u with linked_coach_id := ec.id }) st.users).find?
          (fun w => w.user_id == user.user_id)
          = some { v0 with linked_coach_id := ec.id } :=
        find?_update_first_self _ _ _ _ hv0 hv0p
      exact ⟨ec.id, rfl, ⟨{ v0 with linked_coach_id := ec.id }, hfu, rfl⟩,
        fun ht => absurd ht htr, fun _ => rfl⟩
    | none =>
      rw [hec] at hrun
      simp only [] at hrun
      injection hrun with hA hB
      injection hA with hA
      subst hA
      subst hB
      have hfu : (update_first (fun w => w.user_id == user.user_id)
          (fun u => { u with linked_coach_id := some fresh }) st.users).find?
          (fun w => w.user_id == user.user_id)
          = some { v0 with linked_coach_id := some fresh } :=
        find?_update_first_self _ _ _ _ hv0 hv0p
      refine ⟨some fresh, rfl,
        ⟨{ v0 with linked_coach_id := some fresh }, hfu, rfl⟩,
        fun ht => absurd ht htr, fun _ => ?_⟩
      exact ⟨rfl, ⟨⟨some fresh, none, some user.name, some user.email,
          user.picture, false, none⟩, by simp, rfl, rfl, rfl, rfl⟩⟩

/-- Closed instance of `c6_coach_autolink_amended`: a coach with no
profile gets a fresh one inserted, carrying their name, email and
picture, and their user document is updated to the new id. -/
theorem c6_coach_autolink_amended_witness :
    ∃ lc : Option String, user_coach_linked.linked_coach_id = lc
      ∧ (∃ v, db_coach_linked.users.find?
            (fun w => w.user_id == user_coach.user_id) = some v
          ∧ v.linked_coach_id = lc)
      ∧ (truthy user_coach.linked_coach_id = true →
          lc = user_coach.linked_coach_id ∧ db_coach_linked = db_coachless)
      ∧ (truthy user_coach.linked_coach_id = false →
          match db_coachless.coaches.find?
              (fun c => c.email == some user_coach.email) with
          | some ec => lc = ec.id
          | none => lc = some "cF"
              ∧ ∃ c ∈ db_coach_linked.coaches, c.id = some "cF"
                  ∧ c.name = some user_coach.name
                  ∧ c.email = some user_coach.email
                  ∧ c.photo = user_coach.picture) := by
  have h0 : db_coachless.users.find?
      (fun w => w.user_id == user_coach.user_id) = some user_coach := by decide
  exact c6_coach_autolink_amended db_coachless user_coach "cF" user_coach_linked
    db_coach_linked rfl (by decide)
    (fun v hv => by
      rw [h0] at hv
      injection hv with hv
      subst hv
      rfl)
    (by decide)
